import Mathlib

/-!
Verification model of the BMP280 pressure/temperature sensor driver
(`BMP280.py`, class `BMP280SPI`).

Modelling conventions:
* Python floats (IEEE double) are modelled as exact rationals `ℚ`.  Every
  literal of the source (`16384.0`, `534288.0`, `1.013e2`, ...) is carried
  over with its exact decimal value.
* The SPI port is modelled as a scripted mock bus: `SpiBus.resp i` is the
  byte list answered to the i-th `exchange` call, and an `SpiState` records
  how many exchanges happened and the full log of requests (bytes written,
  number of response bytes requested), so that protocol-sequencing claims
  can be stated about the log.
* `time.sleep` has no observable effect in the model and is dropped; the
  unbounded `while` poll loop is run on explicit fuel, `none` standing for
  the case where the status bit never cleared within the fuel.
* Python's `int()` truncation toward zero is `pyInt`.
* Indexing a response list is modelled with `List.getD _ _ 0`; all theorems
  below only ever use responses of exactly the requested length, where this
  agrees with Python's indexing.
-/

namespace BMP280

/-- Register address `ID = 0xD0` from the `REG` enum. -/
def REG.ID : Nat := 0xD0

/-- Expected contents `ID_VAL = 0x58` of the ID register for a BMP280. -/
def REG.ID_VAL : Nat := 0x58

/-- Register address `STATUS = 0xF3`. -/
def REG.STATUS : Nat := 0xF3

/-- Register address `CONTROL = 0xF4`. -/
def REG.CONTROL : Nat := 0xF4

/-- Register address `CONFIG = 0xF5`. -/
def REG.CONFIG : Nat := 0xF5

/-- Register address `TEMP_MSB = 0xFA`. -/
def REG.TEMP_MSB : Nat := 0xFA

/-- Register address `PRESS_MSB = 0xF7`. -/
def REG.PRESS_MSB : Nat := 0xF7

/-- Coefficient register `T1 = 0x88`. -/
def REG.T1 : Nat := 0x88

/-- Coefficient register `T2 = 0x8A`. -/
def REG.T2 : Nat := 0x8A

/-- Coefficient register `T3 = 0x8C`. -/
def REG.T3 : Nat := 0x8C

/-- Coefficient register `P1 = 0x8E`. -/
def REG.P1 : Nat := 0x8E

/-- Coefficient register `P2 = 0x90`. -/
def REG.P2 : Nat := 0x90

/-- Coefficient register `P3 = 0x92`. -/
def REG.P3 : Nat := 0x92

/-- Coefficient register `P4 = 0x94`. -/
def REG.P4 : Nat := 0x94

/-- Coefficient register `P5 = 0x96`. -/
def REG.P5 : Nat := 0x96

/-- Coefficient register `P6 = 0x98`. -/
def REG.P6 : Nat := 0x98

/-- Coefficient register `P7 = 0x9A`. -/
def REG.P7 : Nat := 0x9A

/-- Coefficient register `P8 = 0x9C`. -/
def REG.P8 : Nat := 0x9C

/-- Coefficient register `P9 = 0x9E`. -/
def REG.P9 : Nat := 0x9E

/-- One SPI transaction request, as issued by `self._spi.exchange(out, readlen)`:
the bytes written, and the number of response bytes requested. -/
structure Exchange where
  out : List Nat
  readlen : Nat
deriving DecidableEq

/-- A scripted mock SPI port: `resp i` is the byte list the port answers to
the i-th exchange (0-based). -/
structure SpiBus where
  resp : Nat → List Nat

/-- Observable bus history: number of exchanges performed so far, and the log
of all requests in order. -/
structure SpiState where
  count : Nat
  log : List Exchange
deriving DecidableEq

/-- `self._spi.exchange(out, readlen)`: returns the scripted response and
records the request. -/
def SpiBus.exchange (bus : SpiBus) (st : SpiState) (out : List Nat) (readlen : Nat) :
    List Nat × SpiState :=
  (bus.resp st.count, ⟨st.count + 1, st.log ++ [⟨out, readlen⟩]⟩)

/-- `_readU8`: `self._spi.exchange([register | 0x80], 1)[0]`. -/
def readU8 (bus : SpiBus) (st : SpiState) (register : Nat) : Nat × SpiState :=
  let (data, st') := bus.exchange st [register ||| 0x80] 1
  (data.getD 0 0, st')

/-- `_readU16`: `data = self._spi.exchange([register | 0x80], 2)` then
`data[1] << 8 | data[0]`. -/
def readU16 (bus : SpiBus) (st : SpiState) (register : Nat) : Nat × SpiState :=
  let (data, st') := bus.exchange st [register ||| 0x80] 2
  ((data.getD 1 0) <<< 8 ||| data.getD 0 0, st')

/-- `_readS16`: `result = self._readU16(register); if result > 32767: result -= 65536`.
The result can be negative, so it lives in `ℤ`. -/
def readS16 (bus : SpiBus) (st : SpiState) (register : Nat) : Int × SpiState :=
  let (result, st') := readU16 bus st register
  (if 32767 < result then (result : Int) - 65536 else (result : Int), st')

/-- `_readU24`: `data = self._spi.exchange([register | 0x80], 3)` then
`float((data[0] << 16 | data[1] << 8 | data[2]) >> 4)`. -/
def readU24 (bus : SpiBus) (st : SpiState) (register : Nat) : ℚ × SpiState :=
  let (data, st') := bus.exchange st [register ||| 0x80] 3
  ((((data.getD 0 0) <<< 16 ||| (data.getD 1 0) <<< 8 ||| data.getD 2 0) >>> 4 : Nat), st')

/-- The twelve calibration coefficients, stored as floats by `__init__`. -/
structure Calib where
  dig_T1 : ℚ
  dig_T2 : ℚ
  dig_T3 : ℚ
  dig_P1 : ℚ
  dig_P2 : ℚ
  dig_P3 : ℚ
  dig_P4 : ℚ
  dig_P5 : ℚ
  dig_P6 : ℚ
  dig_P7 : ℚ
  dig_P8 : ℚ
  dig_P9 : ℚ
deriving DecidableEq

/-- A constructed `BMP280SPI` instance: the coefficients plus the cached
last measurement (`self._temp`, `self._press`), which start out as `None`. -/
structure Driver where
  calib : Calib
  temp : Option ℚ
  press : Option ℚ
deriving DecidableEq

/-- `__init__`: set `_temp`/`_press` to `None`, read the ID register, raise
`RuntimeError('Not a BMP280')` on mismatch, else read the 12 coefficient
registers one by one (each its own 2-byte transaction) and convert with
`float(...)`. A raised exception is `Except.error`; on error no driver value
exists at all. -/
def init (bus : SpiBus) (st : SpiState) : Except String Driver × SpiState :=
  let (idv, st) := readU8 bus st REG.ID
  if idv ≠ REG.ID_VAL then (Except.error "Not a BMP280", st)
  else
    let (t1, st) := readU16 bus st REG.T1
    let (t2, st) := readS16 bus st REG.T2
    let (t3, st) := readS16 bus st REG.T3
    let (p1, st) := readU16 bus st REG.P1
    let (p2, st) := readS16 bus st REG.P2
    let (p3, st) := readS16 bus st REG.P3
    let (p4, st) := readS16 bus st REG.P4
    let (p5, st) := readS16 bus st REG.P5
    let (p6, st) := readS16 bus st REG.P6
    let (p7, st) := readS16 bus st REG.P7
    let (p8, st) := readS16 bus st REG.P8
    let (p9, st) := readS16 bus st REG.P9
    (Except.ok
      ⟨⟨(t1 : ℚ), (t2 : ℚ), (t3 : ℚ), (p1 : ℚ), (p2 : ℚ), (p3 : ℚ),
        (p4 : ℚ), (p5 : ℚ), (p6 : ℚ), (p7 : ℚ), (p8 : ℚ), (p9 : ℚ)⟩,
       none, none⟩, st)

/-- `comp` property: the coefficients as a name/value mapping. -/
def comp (d : Driver) : List (String × ℚ) :=
  [("dig_T1", d.calib.dig_T1), ("dig_T2", d.calib.dig_T2), ("dig_T3", d.calib.dig_T3),
   ("dig_P1", d.calib.dig_P1), ("dig_P2", d.calib.dig_P2), ("dig_P3", d.calib.dig_P3),
   ("dig_P4", d.calib.dig_P4), ("dig_P5", d.calib.dig_P5), ("dig_P6", d.calib.dig_P6),
   ("dig_P7", d.calib.dig_P7), ("dig_P8", d.calib.dig_P8), ("dig_P9", d.calib.dig_P9)]

/-- `temperature` property: `return self._temp` (still `None` before the
first successful `read`). -/
def temperature (d : Driver) : Option ℚ :=
  d.temp

/-- `pressure` property: `return self._press`. -/
def pressure (d : Driver) : Option ℚ :=
  d.press

/-- `mbar` property: `return 1000*(self._press/1.013e2)`.  When `_press` is
still `None` Python raises `TypeError` on the division, modelled as
`Except.error`. -/
def mbar (d : Driver) : Except String ℚ :=
  match d.press with
  | none => Except.error "TypeError: unsupported operand"
  | some p => Except.ok (1000 * (p / 1.013e2))

/-- Python `int()` applied to a float: truncation toward zero. -/
def pyInt (q : ℚ) : ℤ :=
  q.num.tdiv q.den

/-- The first byte of the forced-measurement trigger write:
Python computes `REG.CONTROL & ~0x80` = `0xF4 & -129` = `0x74`, i.e. bit 7
of `0xF4` cleared, which on this value equals `0xF4 &&& 0x7F`. -/
def triggerByte : Nat :=
  REG.CONTROL &&& 0x7F

/-- The poll loop `while self._readU8(REG.STATUS) & 0x08: sleep(0.01)`,
run on explicit fuel; `none` means the status bit was still set after
exhausting the fuel (the Python loop would still be spinning). -/
def pollStatus (bus : SpiBus) : Nat → SpiState → Option SpiState
  | 0, _ => none
  | fuel + 1, st =>
    let (b, st') := readU8 bus st REG.STATUS
    if b &&& 0x08 ≠ 0 then pollStatus bus fuel st' else some st'

/-- Result of the compensation arithmetic of `read` (source lines 134-169)
on given raw `UT`/`UP`: the truncated `t_fine`, the temperature, and the
pressure (`none` when the `var1 == 0.0` guard returned early). -/
structure CompResult where
  t_fine : ℤ
  temp : ℚ
  press : Option ℚ
deriving DecidableEq

/-- The pure compensation path of `read`, lines 134-169 of the source,
transcribed term by term with the literal constants of the code (including
the `534288.0` divisors). -/
def compensate (c : Calib) (UT UP : ℚ) : CompResult :=
  let var1 := (UT / 16384 - c.dig_T1 / 1024) * c.dig_T2
  let var2 := ((UT / 131072 - c.dig_T1 / 8192) *
    (UT / 131072 - c.dig_T1 / 8192)) * c.dig_T3
  let t_fine := pyInt (var1 + var2)
  let temp := (t_fine : ℚ) / 5120
  let var1 := (t_fine : ℚ) / 2 - 64000
  let var2 := var1 * var1 * c.dig_P6 / 32768
  let var2 := var2 + var1 * c.dig_P5 * 2
  let var2 := var2 / 4 + c.dig_P4 * 65536
  let var1 := (c.dig_P3 * var1 * var1 / 534288 + c.dig_P2 * var1) / 534288
  let var1 := (1 + var1 / 32768) * c.dig_P1
  if var1 = 0 then ⟨t_fine, temp, none⟩
  else
    let p := 1048576 - UP
    let p := ((p - var2 / 4096) * 6250) / var1
    let var1 := c.dig_P9 * p * p / 2147483648
    let var2 := p * c.dig_P8 / 32768
    let p := p + (var1 + var2 + c.dig_P7) / 16
    ⟨t_fine, temp, some p⟩

/-- The `t_fine` value computed by the temperature part of `read`
(lines 134-139), as a function of the coefficients and raw `UT`. -/
def tFine (c : Calib) (UT : ℚ) : ℤ :=
  pyInt ((UT / 16384 - c.dig_T1 / 1024) * c.dig_T2 +
    ((UT / 131072 - c.dig_T1 / 8192) * (UT / 131072 - c.dig_T1 / 8192)) * c.dig_T3)

/-- The value of the pressure intermediate `var1` at the `var1 == 0.0`
guard point (source lines 146, 154-157), as a function of the coefficients
and `t_fine`. -/
def pressVar1 (c : Calib) (t_fine : ℤ) : ℚ :=
  let var1 := (t_fine : ℚ) / 2 - 64000
  let var1 := (c.dig_P3 * var1 * var1 / 534288 + c.dig_P2 * var1) / 534288
  (1 + var1 / 32768) * c.dig_P1

/-- The pressure value computed by the non-degenerate path of `read`
(source lines 161-169), as a function of the coefficients, `t_fine` and the
raw `UP`; the leading bindings repeat lines 146-157 verbatim so that the
whole chain matches the source. -/
def pFinal (c : Calib) (t_fine : ℤ) (UP : ℚ) : ℚ :=
  let var1 := (t_fine : ℚ) / 2 - 64000
  let var2 := var1 * var1 * c.dig_P6 / 32768
  let var2 := var2 + var1 * c.dig_P5 * 2
  let var2 := var2 / 4 + c.dig_P4 * 65536
  let var1 := (c.dig_P3 * var1 * var1 / 534288 + c.dig_P2 * var1) / 534288
  let var1 := (1 + var1 / 32768) * c.dig_P1
  let p := 1048576 - UP
  let p := ((p - var2 / 4096) * 6250) / var1
  let var1 := c.dig_P9 * p * p / 2147483648
  let var2 := p * c.dig_P8 / 32768
  p + (var1 + var2 + c.dig_P7) / 16

/-- What Python `read` returns: either the bare integer `0` (the degenerate
pressure guard) or the `(temperature, pressure)` tuple. -/
inductive ReadRet where
  | int0 : ReadRet
  | pair (t p : ℚ) : ReadRet
deriving DecidableEq

/-- `read`: trigger one forced measurement with the two-byte write
`[REG.CONTROL & ~0x80, 0xFE]`, poll `STATUS` until bit `0x08` clears,
read and compensate `UT` and `UP`.  `self._temp` is assigned at line 141,
before the pressure block; `self._press` is assigned only on the
non-degenerate path.  `none` means the poll fuel ran out (the Python call
would not have returned yet). -/
def read (bus : SpiBus) (fuel : Nat) (d : Driver) (st : SpiState) :
    Option (ReadRet × Driver × SpiState) :=
  let (_, st) := bus.exchange st [triggerByte, 0xFE] 0
  match pollStatus bus fuel st with
  | none => none
  | some st =>
    let (UT, st) := readU24 bus st REG.TEMP_MSB
    let var1 := (UT / 16384 - d.calib.dig_T1 / 1024) * d.calib.dig_T2
    let var2 := ((UT / 131072 - d.calib.dig_T1 / 8192) *
      (UT / 131072 - d.calib.dig_T1 / 8192)) * d.calib.dig_T3
    let t_fine := pyInt (var1 + var2)
    let d := { d with temp := some ((t_fine : ℚ) / 5120) }
    let (UP, st) := readU24 bus st REG.PRESS_MSB
    let var1 := (t_fine : ℚ) / 2 - 64000
    let var2 := var1 * var1 * d.calib.dig_P6 / 32768
    let var2 := var2 + var1 * d.calib.dig_P5 * 2
    let var2 := var2 / 4 + d.calib.dig_P4 * 65536
    let var1 := (d.calib.dig_P3 * var1 * var1 / 534288 + d.calib.dig_P2 * var1) / 534288
    let var1 := (1 + var1 / 32768) * d.calib.dig_P1
    if var1 = 0 then some (ReadRet.int0, d, st)
    else
      let p := 1048576 - UP
      let p := ((p - var2 / 4096) * 6250) / var1
      let var1 := d.calib.dig_P9 * p * p / 2147483648
      let var2 := p * d.calib.dig_P8 / 32768
      let p := p + (var1 + var2 + d.calib.dig_P7) / 16
      let d := { d with press := some p }
      some (ReadRet.pair (d.temp.getD 0) (d.press.getD 0), d, st)

/-- The raw temperature value `UT` that `read` obtains once polling has
finished in bus state `st`. -/
def rawUT (bus : SpiBus) (st : SpiState) : ℚ :=
  (readU24 bus st REG.TEMP_MSB).1

/-- The bus state after the `UT` burst read. -/
def stAfterUT (bus : SpiBus) (st : SpiState) : SpiState :=
  (readU24 bus st REG.TEMP_MSB).2

/-- The raw pressure value `UP` that `read` obtains after the `UT` read. -/
def rawUP (bus : SpiBus) (st : SpiState) : ℚ :=
  (readU24 bus (stAfterUT bus st) REG.PRESS_MSB).1

/-- The bus state after both data burst reads. -/
def stAfterUP (bus : SpiBus) (st : SpiState) : SpiState :=
  (readU24 bus (stAfterUT bus st) REG.PRESS_MSB).2

/-- One externally-invokable operation on a constructed driver. -/
inductive DriverOp where
  | doRead (bus : SpiBus) (fuel : Nat)
  | getTemperature
  | getPressure
  | getMbar
  | getComp

/-- Apply one operation to the driver/bus state.  The accessor properties
only read fields; `read` with exhausted fuel has not returned, so no new
state is observed. -/
def applyOp (d : Driver) (st : SpiState) : DriverOp → Driver × SpiState
  | DriverOp.doRead bus fuel =>
    match read bus fuel d st with
    | some (_, d', st') => (d', st')
    | none => (d, st)
  | DriverOp.getTemperature => (d, st)
  | DriverOp.getPressure => (d, st)
  | DriverOp.getMbar => (d, st)
  | DriverOp.getComp => (d, st)

/-- Apply a sequence of operations in order. -/
def applySeq : Driver → SpiState → List DriverOp → Driver × SpiState
  | d, st, [] => (d, st)
  | d, st, op :: ops => applySeq (applyOp d st op).1 (applyOp d st op).2 ops

/-- The datasheet-example calibration set used by the golden test. -/
def goldenCalib : Calib :=
  ⟨27504, 26435, -1000, 36477, -10685, 3024, 2855, 140, -7, 15500, -14600, 6000⟩

/-- An all-zero calibration set; its pressure guard `var1` is
`(1 + 0/32768) * 0 = 0`, so it exercises the degenerate branch. -/
def zeroCalib : Calib :=
  ⟨0, 0, 0, 0, 0, 0, 0, 0, 0, 0, 0, 0⟩

/-- A calibration set whose only nonzero coefficient is `dig_P1 = 1`; the
pressure guard `var1` equals `1`, so `read` takes the non-degenerate path
and the arithmetic stays small. -/
def p1Calib : Calib :=
  ⟨0, 0, 0, 1, 0, 0, 0, 0, 0, 0, 0, 0⟩

/-- Mock bus for the degenerate-guard scenarios: empty response to the
trigger write, status immediately clear, then all-zero data bursts. -/
def degBus : SpiBus :=
  ⟨fun i =>
    if i = 0 then []
    else if i = 1 then [0x00]
    else [0x00, 0x00, 0x00]⟩

/-- Mock bus for a successful read with `p1Calib`: status immediately
clear, `UT` burst all zero, `UP` burst `[0x0F, 0xFF, 0xF0]`
(so `UP = 0x0FFFF0 >> 4 = 65535`). -/
def okBus : SpiBus :=
  ⟨fun i =>
    if i = 0 then []
    else if i = 1 then [0x00]
    else if i = 2 then [0x00, 0x00, 0x00]
    else [0x0F, 0xFF, 0xF0]⟩

/-- Mock bus for the poll-loop witness: the status register reports the
measuring bit `0x08` for the first two polls and clear on the third. -/
def pollBus : SpiBus :=
  ⟨fun i =>
    if i = 0 then []
    else if i ≤ 2 then [0x08]
    else if i = 3 then [0x00]
    else [0x00, 0x00, 0x00]⟩

/-- Mock bus answering `0x00` to the very first exchange, so the identity
check of `init` fails. -/
def badIdBus : SpiBus :=
  ⟨fun _ => [0x00]⟩

/-- Mock bus answering `[0x34, 0x12]` to every exchange, used to witness
the 16-bit read primitives. -/
def u16Bus : SpiBus :=
  ⟨fun _ => [0x34, 0x12]⟩

/-- Mock bus answering `[0xAB, 0xCD, 0xEF]` to every exchange, used to
witness the 24-bit burst read. -/
def u24Bus : SpiBus :=
  ⟨fun _ => [0xAB, 0xCD, 0xEF]⟩

/-- A driver state as it would be right after construction with the golden
coefficients: no measurement cached yet. -/
def freshGoldenDriver : Driver :=
  ⟨goldenCalib, none, none⟩

/-- A driver with the degenerate coefficients and a previously cached
pressure of `555`, to exhibit what the degenerate branch leaves in place. -/
def staleDriver : Driver :=
  ⟨zeroCalib, some 3, some 555⟩

end BMP280

namespace BMP280

/-- A shifted value ors with a small value as addition:
`a <<< n ||| b = a * 2 ^ n + b` when `b < 2 ^ n`. -/
theorem shl_or_add (n : ℕ) : ∀ a b : ℕ, b < 2 ^ n → a <<< n ||| b = a * 2 ^ n + b := by
  induction n with
  | zero =>
    intro a b hb
    interval_cases b
    simp [Nat.shiftLeft_zero]
  | succ n ih =>
    intro a b hb
    have hb2 : b / 2 < 2 ^ n := by
      rw [pow_succ] at hb
      omega
    have h1 : a <<< (n + 1) = Nat.bit false (a <<< n) := by
      simp [Nat.shiftLeft_succ, Nat.bit_val]
    have h2 : Nat.bit (b.testBit 0) (b / 2) = b := by
      rcases Nat.mod_two_eq_zero_or_one b with h | h <;>
        simp [Nat.bit_val, Nat.testBit_zero, h] <;> omega
    rw [h1, ← h2, Nat.lor_bit, Bool.false_or, ih a (b / 2) hb2]
    have h3 : (b.testBit 0).toNat = b % 2 := by
      rcases Nat.mod_two_eq_zero_or_one b with h | h <;> simp [Nat.testBit_zero, h]
    rw [Nat.bit_val, h3, pow_succ]
    have := Nat.div_add_mod b 2
    ring_nf
    omega

/-- The temperature produced by `compensate` is `t_fine / 5120.0`. -/
theorem compensate_temp (c : Calib) (UT UP : ℚ) :
    (compensate c UT UP).temp = ((tFine c UT : ℚ) / 5120) := by
  simp only [compensate, tFine]
  split <;> rfl

/-- The `t_fine` field of `compensate` is `tFine`. -/
theorem compensate_t_fine (c : Calib) (UT UP : ℚ) :
    (compensate c UT UP).t_fine = tFine c UT := by
  simp only [compensate, tFine]
  split <;> rfl

/-- `compensate` returns no pressure exactly when the guard value
`pressVar1` is zero. -/
theorem compensate_press_none_iff (c : Calib) (UT UP : ℚ) :
    (compensate c UT UP).press = none ↔ pressVar1 c (tFine c UT) = 0 := by
  simp only [compensate, pressVar1, tFine]
  split <;> simp_all

unseal Rat.ofScientific Rat.add Rat.sub Rat.mul Rat.inv in
/-- C1. The golden datasheet inputs, exactly: the claim's tolerance of
`1e-3` around `25.08` and `100653.3` fails on the code's arithmetic.  The
temperature comes out at `25.082421875` and the pressure (with the code's
`534288.0` divisors) at about `100653.009`. -/
theorem C1_golden_counterexample :
    (compensate goldenCalib 519888 415148).press.isSome = true ∧
    1 / 1000 ≤ |(compensate goldenCalib 519888 415148).temp - 25.08| ∧
    1 / 1000 ≤ |(compensate goldenCalib 519888 415148).press.getD 0 - 100653.3| := by
  decide

unseal Rat.ofScientific Rat.add Rat.sub Rat.mul Rat.inv in
/-- C1 (amended). For the fixed datasheet calibration set and raw inputs
`UT = 519888`, `UP = 415148`, the pure compensation path of `read` returns
a temperature within `2.5e-3` of `25.08` °C and a pressure within `0.3` of
`100653.3` Pa. -/
theorem C1_golden_amended :
    |(compensate goldenCalib 519888 415148).temp - 25.08| < 25 / 10000 ∧
    (compensate goldenCalib 519888 415148).press.isSome = true ∧
    |(compensate goldenCalib 519888 415148).press.getD 0 - 100653.3| < 3 / 10 := by
  decide


/-- Helper: running the poll loop against a bus whose status byte has bit
`0x08` set for the first `N` reads (counting from exchange index `c`) and
clear on the next performs exactly `N + 1` status exchanges and stops. -/
theorem pollStatus_run (bus : SpiBus) (N : Nat) :
    forall (fuel c : Nat) (lg : List Exchange), N < fuel ->
      (forall k, k < N -> (bus.resp (c + k)).getD 0 0 &&& 0x08 ≠ 0) ->
      (bus.resp (c + N)).getD 0 0 &&& 0x08 = 0 ->
      pollStatus bus fuel ⟨c, lg⟩ =
        some ⟨c + N + 1, lg ++ List.replicate (N + 1) ⟨[REG.STATUS ||| 0x80], 1⟩⟩ := by
  induction N with
  | zero =>
    intro fuel c lg hfuel hset hclear
    match fuel, hfuel with
    | fuel + 1, _ =>
      simp only [pollStatus, readU8, SpiBus.exchange]
      rw [if_neg (by simpa using hclear)]
      simp
  | succ N ih =>
    intro fuel c lg hfuel hset hclear
    match fuel, hfuel with
    | fuel + 1, hfuel =>
      simp only [pollStatus, readU8, SpiBus.exchange]
      rw [if_pos (by simpa using hset 0 (by omega))]
      have hset2 : forall k, k < N -> (bus.resp (c + 1 + k)).getD 0 0 &&& 0x08 ≠ 0 := by
        intro k hk
        rw [show c + 1 + k = c + (k + 1) by omega]
        exact hset (k + 1) (by omega)
      have hclear2 : (bus.resp (c + 1 + N)).getD 0 0 &&& 0x08 = 0 := by
        rw [show c + 1 + N = c + (N + 1) by omega]
        exact hclear
      have hres := ih fuel (c + 1) (lg ++ [⟨[REG.STATUS ||| 0x80], 1⟩]) (by omega) hset2 hclear2
      rw [hres]
      simp only [Option.some.injEq, SpiState.mk.injEq]
      refine ⟨by omega, ?_⟩
      rw [List.append_assoc, List.singleton_append, ← List.replicate_succ]



/-- Helper: when polling succeeds in bus state `st₁` and the pressure guard
value is zero, `read` returns the bare `0`, caches the freshly computed
temperature, and leaves the cached pressure untouched. -/
theorem read_deg (bus : SpiBus) (fuel : Nat) (d : Driver) (st st₁ : SpiState)
    (hpoll : pollStatus bus fuel ⟨st.count + 1, st.log ++ [⟨[triggerByte, 0xFE], 0⟩]⟩ = some st₁)
    (hdeg : pressVar1 d.calib (tFine d.calib (rawUT bus st₁)) = 0) :
    read bus fuel d st =
      some (ReadRet.int0,
        ⟨d.calib, some ((tFine d.calib (rawUT bus st₁) : ℚ) / 5120), d.press⟩,
        stAfterUP bus st₁) := by
  simp only [read, SpiBus.exchange]
  rw [hpoll]
  simp only [readU24, SpiBus.exchange]
  split
  · rfl
  · next hg => exact absurd hdeg hg



/-- Helper: when polling succeeds in bus state `st₁` and the pressure guard
value is nonzero, `read` returns the `(temperature, pressure)` tuple and
caches both values. -/
theorem read_ok (bus : SpiBus) (fuel : Nat) (d : Driver) (st st₁ : SpiState)
    (hpoll : pollStatus bus fuel ⟨st.count + 1, st.log ++ [⟨[triggerByte, 0xFE], 0⟩]⟩ = some st₁)
    (hok : pressVar1 d.calib (tFine d.calib (rawUT bus st₁)) ≠ 0) :
    read bus fuel d st =
      some (ReadRet.pair ((tFine d.calib (rawUT bus st₁) : ℚ) / 5120)
          (pFinal d.calib (tFine d.calib (rawUT bus st₁)) (rawUP bus st₁)),
        ⟨d.calib, some ((tFine d.calib (rawUT bus st₁) : ℚ) / 5120),
          some (pFinal d.calib (tFine d.calib (rawUT bus st₁)) (rawUP bus st₁))⟩,
        stAfterUP bus st₁) := by
  simp only [read, SpiBus.exchange]
  rw [hpoll]
  simp only [readU24, SpiBus.exchange, Option.getD_some]
  split
  · next hg => exact absurd hg hok
  · rfl


/-- Multiplication form of `shl_or_add`. -/
theorem mul_two_pow_or_add (n a b : ℕ) (h : b < 2 ^ n) :
    a * 2 ^ n ||| b = a * 2 ^ n + b := by
  have h2 := shl_or_add n a b h
  rwa [Nat.shiftLeft_eq] at h2

/-- C4. If the first exchange (the ID-register read) answers anything other
than `0x58`, construction fails with the identity error and the bus log
contains exactly that one exchange: no coefficient register was read, and no
driver value is produced. -/
theorem C4_identity_mismatch (bus : SpiBus)
    (h : (bus.resp 0).getD 0 0 ≠ REG.ID_VAL) :
    init bus ⟨0, []⟩ = (Except.error "Not a BMP280", ⟨1, [⟨[REG.ID ||| 0x80], 1⟩]⟩) := by
  simp only [init, readU8, SpiBus.exchange]
  rw [if_pos h]
  simp

/-- C5. For every response pair `(lo, hi)` of bytes, `_readU16` sends the
single command byte `addr | 0x80`, requests 2 bytes and returns
`hi * 256 + lo`; `_readS16` returns that value minus 65536 exactly when it
exceeds 32767, else unchanged, so its result lies in `[-32768, 32767]`. -/
theorem C5_u16_s16 (bus : SpiBus) (st : SpiState) (addr lo hi : Nat)
    (hlo : lo < 256) (hhi : hi < 256) (hresp : bus.resp st.count = [lo, hi]) :
    readU16 bus st addr =
      (hi * 256 + lo, ⟨st.count + 1, st.log ++ [⟨[addr ||| 0x80], 2⟩]⟩) ∧
    readS16 bus st addr =
      ((if 32767 < hi * 256 + lo then (hi * 256 + lo : ℤ) - 65536 else (hi * 256 + lo : ℤ)),
       ⟨st.count + 1, st.log ++ [⟨[addr ||| 0x80], 2⟩]⟩) ∧
    -32768 ≤ (readS16 bus st addr).1 ∧ (readS16 bus st addr).1 ≤ 32767 := by
  have hv : hi <<< 8 ||| lo = hi * 256 + lo := by
    have h2 := shl_or_add 8 hi lo (by omega)
    simpa using h2
  have e16 : readU16 bus st addr =
      (hi * 256 + lo, ⟨st.count + 1, st.log ++ [⟨[addr ||| 0x80], 2⟩]⟩) := by
    simp only [readU16, SpiBus.exchange, hresp]
    simp [hv]
  have e16s : readS16 bus st addr =
      ((if 32767 < hi * 256 + lo then (hi * 256 + lo : ℤ) - 65536 else (hi * 256 + lo : ℤ)),
       ⟨st.count + 1, st.log ++ [⟨[addr ||| 0x80], 2⟩]⟩) := by
    simp only [readS16, e16]
    split <;> simp only [Prod.mk.injEq, and_true] <;> push_cast <;> ring
  refine ⟨e16, e16s, ?_, ?_⟩ <;> rw [e16s] <;> dsimp only <;> split <;> omega

/-- C6. For every 3-byte response burst `(b0, b1, b2)`, `_readU24` sends the
single command byte `addr | 0x80`, requests 3 bytes and returns
`float(((b0 << 16) | (b1 << 8) | b2) >> 4)`: byte 0 is most significant and
the low 4 bits are dropped, so the result is below `2 ^ 20`. -/
theorem C6_u24 (bus : SpiBus) (st : SpiState) (addr b0 b1 b2 : Nat)
    (h0 : b0 < 256) (h1 : b1 < 256) (h2 : b2 < 256)
    (hresp : bus.resp st.count = [b0, b1, b2]) :
    readU24 bus st addr =
      ((((b0 <<< 16 ||| b1 <<< 8 ||| b2) >>> 4 : ℕ) : ℚ),
       ⟨st.count + 1, st.log ++ [⟨[addr ||| 0x80], 3⟩]⟩) ∧
    (readU24 bus st addr).1 = (((b0 * 65536 + b1 * 256 + b2) / 16 : ℕ) : ℚ) ∧
    (readU24 bus st addr).1 < 2 ^ 20 := by
  have hval : (b0 <<< 16 ||| b1 <<< 8 ||| b2) = b0 * 65536 + b1 * 256 + b2 := by
    rw [Nat.shiftLeft_eq, Nat.shiftLeft_eq]
    rw [mul_two_pow_or_add 16 b0 (b1 * 2 ^ 8) (by norm_num; omega)]
    rw [show b0 * 2 ^ 16 + b1 * 2 ^ 8 = (b0 * 2 ^ 8 + b1) * 2 ^ 8 by ring]
    rw [mul_two_pow_or_add 8 (b0 * 2 ^ 8 + b1) b2 (by norm_num; omega)]
    ring
  have e24 : readU24 bus st addr =
      ((((b0 <<< 16 ||| b1 <<< 8 ||| b2) >>> 4 : ℕ) : ℚ),
       ⟨st.count + 1, st.log ++ [⟨[addr ||| 0x80], 3⟩]⟩) := by
    simp only [readU24, SpiBus.exchange, hresp]
    simp
  have hdiv : (b0 <<< 16 ||| b1 <<< 8 ||| b2) >>> 4 = (b0 * 65536 + b1 * 256 + b2) / 16 := by
    rw [hval, Nat.shiftRight_eq_div_pow]
  refine ⟨e24, ?_, ?_⟩
  · rw [e24, hdiv]
  · rw [e24]
    dsimp only
    rw [hdiv]
    have hn : (b0 * 65536 + b1 * 256 + b2) / 16 < 1048576 := by omega
    calc (((b0 * 65536 + b1 * 256 + b2) / 16 : ℕ) : ℚ) < ((1048576 : ℕ) : ℚ) := by
          exact_mod_cast hn
      _ = 2 ^ 20 := by norm_num

/-- C7. For every cached pressure `p`, the `mbar` accessor returns exactly
`1000 * (p / 1.013e2)` with the literal divisor `1.013e2 = 1013/10`
(not `1013.25`). -/
theorem C7_mbar (d : Driver) (p : ℚ) (h : d.press = some p) :
    mbar d = Except.ok (1000 * (p / (1013 / 10))) := by
  simp only [mbar, h]
  norm_num


/-- Helper: if `read` returned the tuple `(t, p)`, then the driver it left
behind has exactly `t` and `p` cached and the calibration unchanged. -/
theorem read_pair_inv (bus : SpiBus) (fuel : Nat) (d : Driver) (st : SpiState)
    (t p : ℚ) (d' : Driver) (st' : SpiState)
    (h : read bus fuel d st = some (ReadRet.pair t p, d', st')) :
    d' = ⟨d.calib, some t, some p⟩ := by
  simp only [read, SpiBus.exchange] at h
  cases hp : pollStatus bus fuel ⟨st.count + 1, st.log ++ [⟨[triggerByte, 0xFE], 0⟩]⟩ with
  | none => rw [hp] at h; simp at h
  | some st₁ =>
    rw [hp] at h
    simp only [readU24, SpiBus.exchange, Option.getD_some] at h
    split at h
    · simp at h
    · simp only [Option.some.injEq, Prod.mk.injEq, ReadRet.pair.injEq] at h
      obtain ⟨⟨ht, hq⟩, hd, hst⟩ := h
      rw [← hd, ← ht, ← hq]

/-- Helper: `read` never changes the calibration coefficients. -/
theorem read_calib (bus : SpiBus) (fuel : Nat) (d : Driver) (st : SpiState)
    (r : ReadRet) (d' : Driver) (st' : SpiState)
    (h : read bus fuel d st = some (r, d', st')) :
    d'.calib = d.calib := by
  simp only [read, SpiBus.exchange] at h
  cases hp : pollStatus bus fuel ⟨st.count + 1, st.log ++ [⟨[triggerByte, 0xFE], 0⟩]⟩ with
  | none => rw [hp] at h; simp at h
  | some st₁ =>
    rw [hp] at h
    simp only [readU24, SpiBus.exchange, Option.getD_some] at h
    split at h <;>
      (simp only [Option.some.injEq, Prod.mk.injEq] at h
       obtain ⟨hr, hd, hst⟩ := h
       rw [← hd])

/-- Helper: no driver operation changes the calibration coefficients. -/
theorem applyOp_calib (d : Driver) (st : SpiState) (op : DriverOp) :
    (applyOp d st op).1.calib = d.calib := by
  cases op with
  | doRead bus fuel =>
    cases hr : read bus fuel d st with
    | none => simp [applyOp, hr]
    | some out =>
      obtain ⟨r, d', st'⟩ := out
      simp only [applyOp, hr]
      exact read_calib bus fuel d st r d' st' hr
  | getTemperature => rfl
  | getPressure => rfl
  | getMbar => rfl
  | getComp => rfl

/-- C10. When the degenerate guard `var1 == 0.0` triggers, `read` returns
the bare integer `0` (not a tuple), and the call is not atomic with respect
to the cache: the cached temperature has already been overwritten with the
new value, while the cached pressure retains whatever the driver held before
the call. -/
theorem C10_degenerate_bare_zero (bus : SpiBus) (fuel : Nat) (d : Driver)
    (st st₁ : SpiState)
    (hpoll : pollStatus bus fuel ⟨st.count + 1, st.log ++ [⟨[triggerByte, 0xFE], 0⟩]⟩ = some st₁)
    (hdeg : (compensate d.calib (rawUT bus st₁) (rawUP bus st₁)).press = none) :
    read bus fuel d st =
      some (ReadRet.int0,
        ⟨d.calib, some ((tFine d.calib (rawUT bus st₁) : ℚ) / 5120), d.press⟩,
        stAfterUP bus st₁) := by
  rw [compensate_press_none_iff] at hdeg
  exact read_deg bus fuel d st st₁ hpoll hdeg

/-- C2 (amended). For every calibration set and raw input with `var1 = 0.0`
at the guard point, `read` performs no division by `var1`: no pressure is
produced for that call (`compensate`'s pressure is `none`), the driver value
stays usable, the valid temperature of this call is cached and available
through the `temperature` accessor, and the cached pressure is left as it
was -- but the call returns the bare sentinel `0`, which does not carry the
temperature. -/
theorem C2_degenerate_guard (bus : SpiBus) (fuel : Nat) (d : Driver) (st st₁ : SpiState)
    (hpoll : pollStatus bus fuel ⟨st.count + 1, st.log ++ [⟨[triggerByte, 0xFE], 0⟩]⟩ = some st₁)
    (hguard : pressVar1 d.calib (tFine d.calib (rawUT bus st₁)) = 0) :
    ∃ d', read bus fuel d st = some (ReadRet.int0, d', stAfterUP bus st₁) ∧
      temperature d' = some ((tFine d.calib (rawUT bus st₁) : ℚ) / 5120) ∧
      pressure d' = pressure d ∧
      (compensate d.calib (rawUT bus st₁) (rawUP bus st₁)).press = none := by
  refine ⟨⟨d.calib, some ((tFine d.calib (rawUT bus st₁) : ℚ) / 5120), d.press⟩,
    read_deg bus fuel d st st₁ hpoll hguard, rfl, rfl, ?_⟩
  rw [compensate_press_none_iff]
  exact hguard

/-- C8 (amended). Before the first successful read, `temperature()` and
`pressure()` return `None`, but `mbar` raises a `TypeError` (it divides
`None` by `1.013e2`) instead of returning an optional value; after a
successful read returning `(t, p)` the accessors return the cached `t`, `p`
and `1000 * (p / 1.013e2)`. -/
theorem C8_accessor_states (c : Calib) (bus : SpiBus) (fuel : Nat)
    (d d' : Driver) (st st' : SpiState) (t p : ℚ)
    (hread : read bus fuel d st = some (ReadRet.pair t p, d', st')) :
    temperature ⟨c, none, none⟩ = none ∧
    pressure ⟨c, none, none⟩ = none ∧
    mbar ⟨c, none, none⟩ = Except.error "TypeError: unsupported operand" ∧
    temperature d' = some t ∧ pressure d' = some p ∧
    mbar d' = Except.ok (1000 * (p / (1013 / 10))) := by
  have hd := read_pair_inv bus fuel d st t p d' st' hread
  subst hd
  refine ⟨rfl, rfl, rfl, rfl, rfl, ?_⟩
  simp only [mbar]
  norm_num

/-- C3. For every `N`, when the mocked status register reports bit `0x08`
set for the first `N` status reads and clear on the next, `read` first
issues the two trigger bytes `(CONTROL & ~0x80), 0xFE`, then exactly `N + 1`
status reads, and only then the `TEMP_MSB` burst followed by the `PRESS_MSB`
burst -- the full bus log in order. -/
theorem C3_trigger_poll_data (N : Nat) (bus : SpiBus) (d : Driver)
    (hset : ∀ k, k < N → (bus.resp (1 + k)).getD 0 0 &&& 0x08 ≠ 0)
    (hclear : (bus.resp (1 + N)).getD 0 0 &&& 0x08 = 0) :
    ∃ r d', read bus (N + 1) d ⟨0, []⟩ =
      some (r, d',
        ⟨N + 4,
         ⟨[triggerByte, 0xFE], 0⟩ ::
           (List.replicate (N + 1) ⟨[REG.STATUS ||| 0x80], 1⟩ ++
             [⟨[REG.TEMP_MSB ||| 0x80], 3⟩, ⟨[REG.PRESS_MSB ||| 0x80], 3⟩])⟩) := by
  have hpoll := pollStatus_run bus N (N + 1) 1 [⟨[triggerByte, 0xFE], 0⟩] (by omega) hset hclear
  set ST : SpiState :=
    ⟨1 + N + 1, [⟨[triggerByte, 0xFE], 0⟩] ++
      List.replicate (N + 1) ⟨[REG.STATUS ||| 0x80], 1⟩⟩ with hST
  have hstate : stAfterUP bus ST =
      ⟨N + 4, ⟨[triggerByte, 0xFE], 0⟩ ::
        (List.replicate (N + 1) ⟨[REG.STATUS ||| 0x80], 1⟩ ++
          [⟨[REG.TEMP_MSB ||| 0x80], 3⟩, ⟨[REG.PRESS_MSB ||| 0x80], 3⟩])⟩ := by
    rw [hST]
    simp only [stAfterUP, stAfterUT, readU24, SpiBus.exchange]
    simp only [SpiState.mk.injEq]
    constructor
    · omega
    · simp [List.append_assoc]
  by_cases hg : pressVar1 d.calib (tFine d.calib (rawUT bus ST)) = 0
  · exact ⟨ReadRet.int0,
      ⟨d.calib, some ((tFine d.calib (rawUT bus ST) : ℚ) / 5120), d.press⟩,
      by rw [read_deg bus (N + 1) d ⟨0, []⟩ ST hpoll hg, hstate]⟩
  · exact ⟨ReadRet.pair ((tFine d.calib (rawUT bus ST) : ℚ) / 5120)
        (pFinal d.calib (tFine d.calib (rawUT bus ST)) (rawUP bus ST)),
      ⟨d.calib, some ((tFine d.calib (rawUT bus ST) : ℚ) / 5120),
        some (pFinal d.calib (tFine d.calib (rawUT bus ST)) (rawUP bus ST))⟩,
      by rw [read_ok bus (N + 1) d ⟨0, []⟩ ST hpoll hg, hstate]⟩

/-- C9. The 12 calibration coefficients are never mutated after
construction: any sequence of `read`, `temperature`, `pressure`, `mbar` and
`comp` calls leaves `calib` (and hence the `comp` mapping) unchanged;
`read` only ever touches the `temp`/`press` cache fields. -/
theorem C9_coefficients_immutable (d : Driver) (st : SpiState) (ops : List DriverOp) :
    (applySeq d st ops).1.calib = d.calib ∧ comp (applySeq d st ops).1 = comp d := by
  have hc : (applySeq d st ops).1.calib = d.calib := by
    induction ops generalizing d st with
    | nil => rfl
    | cons op ops ih =>
      simp only [applySeq]
      rw [ih]
      exact applyOp_calib d st op
  refine ⟨hc, ?_⟩
  simp [comp, hc]


unseal Rat.ofScientific Rat.add Rat.sub Rat.mul Rat.inv in
/-- C2 counterexample: on a concrete degenerate read the returned value is
the bare integer `0` (`ReadRet.int0`), not a pair carrying the computed
temperature (which is only cached, here as `some 0`), so "still returns ...
the valid temperature" fails as stated. -/
theorem C2_returns_bare_zero_cex :
    read degBus 1 ⟨zeroCalib, none, none⟩ ⟨0, []⟩ =
      some (ReadRet.int0, ⟨zeroCalib, some 0, none⟩,
        ⟨4, [⟨[triggerByte, 0xFE], 0⟩, ⟨[REG.STATUS ||| 0x80], 1⟩,
             ⟨[REG.TEMP_MSB ||| 0x80], 3⟩, ⟨[REG.PRESS_MSB ||| 0x80], 3⟩]⟩) := by
  decide

/-- C8 counterexample: on a freshly constructed driver `temperature` and
`pressure` do return `None`, but `mbar` raises a `TypeError` instead of
returning an optional value. -/
theorem C8_fresh_mbar_raises_cex :
    temperature freshGoldenDriver = none ∧ pressure freshGoldenDriver = none ∧
    mbar freshGoldenDriver = Except.error "TypeError: unsupported operand" :=
  ⟨rfl, rfl, rfl⟩

unseal Rat.ofScientific Rat.add Rat.sub Rat.mul Rat.inv in
/-- Witness for C2 at a concrete degenerate scenario. -/
theorem C2_degenerate_guard_witness :
    (pollStatus degBus 1 ⟨1, [⟨[triggerByte, 0xFE], 0⟩]⟩ =
      some ⟨2, [⟨[triggerByte, 0xFE], 0⟩, ⟨[REG.STATUS ||| 0x80], 1⟩]⟩) ∧
    (pressVar1 staleDriver.calib (tFine staleDriver.calib
      (rawUT degBus ⟨2, [⟨[triggerByte, 0xFE], 0⟩, ⟨[REG.STATUS ||| 0x80], 1⟩]⟩)) = 0) ∧
    (∃ d', read degBus 1 staleDriver ⟨0, []⟩ =
        some (ReadRet.int0, d',
          stAfterUP degBus ⟨2, [⟨[triggerByte, 0xFE], 0⟩, ⟨[REG.STATUS ||| 0x80], 1⟩]⟩) ∧
      temperature d' = some ((tFine staleDriver.calib
        (rawUT degBus ⟨2, [⟨[triggerByte, 0xFE], 0⟩, ⟨[REG.STATUS ||| 0x80], 1⟩]⟩) : ℚ) / 5120) ∧
      pressure d' = pressure staleDriver ∧
      (compensate staleDriver.calib
        (rawUT degBus ⟨2, [⟨[triggerByte, 0xFE], 0⟩, ⟨[REG.STATUS ||| 0x80], 1⟩]⟩)
        (rawUP degBus ⟨2, [⟨[triggerByte, 0xFE], 0⟩, ⟨[REG.STATUS ||| 0x80], 1⟩]⟩)).press = none) :=
  ⟨by decide, by decide,
    C2_degenerate_guard degBus 1 staleDriver ⟨0, []⟩
      ⟨2, [⟨[triggerByte, 0xFE], 0⟩, ⟨[REG.STATUS ||| 0x80], 1⟩]⟩ (by decide) (by decide)⟩

unseal Rat.ofScientific Rat.add Rat.sub Rat.mul Rat.inv in
/-- Witness for C10 at a concrete degenerate scenario. -/
theorem C10_degenerate_bare_zero_witness :
    (pollStatus degBus 1 ⟨1, [⟨[triggerByte, 0xFE], 0⟩]⟩ =
      some ⟨2, [⟨[triggerByte, 0xFE], 0⟩, ⟨[REG.STATUS ||| 0x80], 1⟩]⟩) ∧
    ((compensate staleDriver.calib
        (rawUT degBus ⟨2, [⟨[triggerByte, 0xFE], 0⟩, ⟨[REG.STATUS ||| 0x80], 1⟩]⟩)
        (rawUP degBus ⟨2, [⟨[triggerByte, 0xFE], 0⟩, ⟨[REG.STATUS ||| 0x80], 1⟩]⟩)).press = none) ∧
    (read degBus 1 staleDriver ⟨0, []⟩ =
      some (ReadRet.int0,
        ⟨staleDriver.calib, some ((tFine staleDriver.calib
          (rawUT degBus ⟨2, [⟨[triggerByte, 0xFE], 0⟩, ⟨[REG.STATUS ||| 0x80], 1⟩]⟩) : ℚ) / 5120),
          staleDriver.press⟩,
        stAfterUP degBus ⟨2, [⟨[triggerByte, 0xFE], 0⟩, ⟨[REG.STATUS ||| 0x80], 1⟩]⟩)) :=
  ⟨by decide, by decide,
    C10_degenerate_bare_zero degBus 1 staleDriver ⟨0, []⟩
      ⟨2, [⟨[triggerByte, 0xFE], 0⟩, ⟨[REG.STATUS ||| 0x80], 1⟩]⟩ (by decide) (by decide)⟩

unseal Rat.ofScientific Rat.add Rat.sub Rat.mul Rat.inv in
/-- Witness for C3 with `N = 2`. -/
theorem C3_trigger_poll_data_witness :
    (∀ k, k < 2 → (pollBus.resp (1 + k)).getD 0 0 &&& 0x08 ≠ 0) ∧
    ((pollBus.resp (1 + 2)).getD 0 0 &&& 0x08 = 0) ∧
    (∃ r d', read pollBus (2 + 1) ⟨p1Calib, none, none⟩ ⟨0, []⟩ =
      some (r, d',
        ⟨2 + 4,
         ⟨[triggerByte, 0xFE], 0⟩ ::
           (List.replicate (2 + 1) ⟨[REG.STATUS ||| 0x80], 1⟩ ++
             [⟨[REG.TEMP_MSB ||| 0x80], 3⟩, ⟨[REG.PRESS_MSB ||| 0x80], 3⟩])⟩)) :=
  ⟨by decide, by decide,
    C3_trigger_poll_data 2 pollBus ⟨p1Calib, none, none⟩ (by decide) (by decide)⟩

/-- Witness for C4 with an ID response of `0x00`. -/
theorem C4_identity_mismatch_witness :
    ((badIdBus.resp 0).getD 0 0 ≠ REG.ID_VAL) ∧
    (init badIdBus ⟨0, []⟩ =
      (Except.error "Not a BMP280", ⟨1, [⟨[REG.ID ||| 0x80], 1⟩]⟩)) :=
  ⟨by decide, C4_identity_mismatch badIdBus (by decide)⟩

/-- Witness for C5 with the response pair `(0x34, 0x12)`. -/
theorem C5_u16_s16_witness :
    ((0x34 : Nat) < 256) ∧ ((0x12 : Nat) < 256) ∧ (u16Bus.resp 0 = [0x34, 0x12]) ∧
    (readU16 u16Bus ⟨0, []⟩ REG.T1 =
        (0x12 * 256 + 0x34, ⟨1, [⟨[REG.T1 ||| 0x80], 2⟩]⟩) ∧
      readS16 u16Bus ⟨0, []⟩ REG.T1 =
        ((if 32767 < 0x12 * 256 + 0x34 then (0x12 * 256 + 0x34 : ℤ) - 65536
          else (0x12 * 256 + 0x34 : ℤ)),
         ⟨1, [⟨[REG.T1 ||| 0x80], 2⟩]⟩) ∧
      -32768 ≤ (readS16 u16Bus ⟨0, []⟩ REG.T1).1 ∧
      (readS16 u16Bus ⟨0, []⟩ REG.T1).1 ≤ 32767) :=
  ⟨by decide, by decide, by decide,
    C5_u16_s16 u16Bus ⟨0, []⟩ REG.T1 0x34 0x12 (by decide) (by decide) (by decide)⟩

/-- Witness for C6 with the burst `(0xAB, 0xCD, 0xEF)`. -/
theorem C6_u24_witness :
    ((0xAB : Nat) < 256) ∧ ((0xCD : Nat) < 256) ∧ ((0xEF : Nat) < 256) ∧
    (u24Bus.resp 0 = [0xAB, 0xCD, 0xEF]) ∧
    (readU24 u24Bus ⟨0, []⟩ REG.TEMP_MSB =
        ((((0xAB <<< 16 ||| 0xCD <<< 8 ||| 0xEF) >>> 4 : ℕ) : ℚ),
         ⟨1, [⟨[REG.TEMP_MSB ||| 0x80], 3⟩]⟩) ∧
      (readU24 u24Bus ⟨0, []⟩ REG.TEMP_MSB).1 =
        (((0xAB * 65536 + 0xCD * 256 + 0xEF) / 16 : ℕ) : ℚ) ∧
      (readU24 u24Bus ⟨0, []⟩ REG.TEMP_MSB).1 < 2 ^ 20) :=
  ⟨by decide, by decide, by decide, by decide,
    C6_u24 u24Bus ⟨0, []⟩ REG.TEMP_MSB 0xAB 0xCD 0xEF
      (by decide) (by decide) (by decide) (by decide)⟩

/-- Witness for C7 with a cached pressure of `555`. -/
theorem C7_mbar_witness :
    staleDriver.press = some 555 ∧
    mbar staleDriver = Except.ok (1000 * ((555 : ℚ) / (1013 / 10))) :=
  ⟨rfl, C7_mbar staleDriver 555 rfl⟩

unseal Rat.ofScientific Rat.add Rat.sub Rat.mul Rat.inv in
/-- Witness for C8 with a concrete successful read. -/
theorem C8_accessor_states_witness :
    (read okBus 1 ⟨p1Calib, none, none⟩ ⟨0, []⟩ =
      some (ReadRet.pair 0 6144006250, ⟨p1Calib, some 0, some 6144006250⟩,
        ⟨4, [⟨[triggerByte, 0xFE], 0⟩, ⟨[REG.STATUS ||| 0x80], 1⟩,
             ⟨[REG.TEMP_MSB ||| 0x80], 3⟩, ⟨[REG.PRESS_MSB ||| 0x80], 3⟩]⟩)) ∧
    (temperature ⟨p1Calib, none, none⟩ = none ∧
     pressure ⟨p1Calib, none, none⟩ = none ∧
     mbar ⟨p1Calib, none, none⟩ = Except.error "TypeError: unsupported operand" ∧
     temperature ⟨p1Calib, some 0, some 6144006250⟩ = some 0 ∧
     pressure ⟨p1Calib, some 0, some 6144006250⟩ = some 6144006250 ∧
     mbar ⟨p1Calib, some 0, some 6144006250⟩ =
       Except.ok (1000 * ((6144006250 : ℚ) / (1013 / 10)))) :=
  ⟨by decide,
    C8_accessor_states p1Calib okBus 1 ⟨p1Calib, none, none⟩
      ⟨p1Calib, some 0, some 6144006250⟩ ⟨0, []⟩
      ⟨4, [⟨[triggerByte, 0xFE], 0⟩, ⟨[REG.STATUS ||| 0x80], 1⟩,
           ⟨[REG.TEMP_MSB ||| 0x80], 3⟩, ⟨[REG.PRESS_MSB ||| 0x80], 3⟩]⟩
      0 6144006250 (by decide)⟩

end BMP280
